import Mathlib

/-!
Shallow embedding of the GL command-batching core of the gtk repository:
the uniform-state cache (gskgluniformstate.c), the attachment-state tracker
(gskglattachmentstate.c), the growable vertex buffer (gskglbuffer.c) and the
command queue (gskglcommandqueue.c).  Pure data is modelled with Lean
structures, GLib arrays with Lean lists, and the mutating C functions as
state-passing Lean functions.  Machine integers are modelled as Nat or Int;
bit-field stores truncate with an explicit modulus where the pool can
actually exceed the field width.  Fatal defensive checks (g_assert,
g_return_if_fail) are modelled as an error outcome that leaves the state
unchanged, so that theorems can distinguish the error path from a normal
return.
-/

/-!
Part 1: uniform state, translated from gskgluniformstate.c and
gskgluniformstateprivate.h.
-/

/-- Scalar word stored in the uniform data pool.  The C code stores 32-bit
float or int payloads and compares them with the C equality operators; a
bit-identical payload is modelled as an equal value of this type.  (NaN and
signed-zero subtleties of float comparison are not exercised by any claim:
every claim either compares bit-identical data or never reaches the
comparison.) -/
abbrev GLWord := Int

def GSK_GL_UNIFORM_FORMAT_1F : Nat := 1

def GSK_GL_UNIFORM_FORMAT_2F : Nat := 2

def GSK_GL_UNIFORM_FORMAT_3F : Nat := 3

def GSK_GL_UNIFORM_FORMAT_4F : Nat := 4

def GSK_GL_UNIFORM_FORMAT_1FV : Nat := 5

def GSK_GL_UNIFORM_FORMAT_2FV : Nat := 6

def GSK_GL_UNIFORM_FORMAT_3FV : Nat := 7

def GSK_GL_UNIFORM_FORMAT_4FV : Nat := 8

def GSK_GL_UNIFORM_FORMAT_1I : Nat := 9

def GSK_GL_UNIFORM_FORMAT_2I : Nat := 10

def GSK_GL_UNIFORM_FORMAT_3I : Nat := 11

def GSK_GL_UNIFORM_FORMAT_4I : Nat := 12

def GSK_GL_UNIFORM_FORMAT_TEXTURE : Nat := 13

def GSK_GL_UNIFORM_FORMAT_MATRIX : Nat := 14

def GSK_GL_UNIFORM_FORMAT_ROUNDED_RECT : Nat := 15

def GSK_GL_UNIFORM_FORMAT_COLOR : Nat := 16

def GSK_GL_UNIFORM_FORMAT_LAST : Nat := 17

/-- Value of the GL enum token GL_MAX_UNIFORM_LOCATIONS (0x826E).  The
assert in get_uniform compares the location against this token value
directly (it does not query the driver limit). -/
def GL_MAX_UNIFORM_LOCATIONS : Nat := 33390

/-- The uniform_sizes array of gskgluniformstate.c, exactly as laid out in
the source: sixteen sizeof entries followed by a trailing 0.  Entry sizes:
Uniform1f..4f are 4..16 bytes, repeated once for the vector forms, then
Uniform1i..4i (4..16), sizeof(guint) = 4, sizeof(graphene_matrix_t) = 64,
sizeof(GskRoundedRect) = 48, sizeof(GdkRGBA) = 16.  Note the array is
indexed with the raw format value, whose enum starts at 1. -/
def uniform_sizes : Nat → Nat
  | 0 => 4
  | 1 => 8
  | 2 => 12
  | 3 => 16
  | 4 => 4
  | 5 => 8
  | 6 => 12
  | 7 => 16
  | 8 => 4
  | 9 => 8
  | 10 => 12
  | 11 => 16
  | 12 => 4
  | 13 => 64
  | 14 => 48
  | 15 => 16
  | _ => 0

/-- GskGLUniformInfo from gskgluniformstateprivate.h: a 32-bit record with
bit-fields changed:1, format:5, array_count:6, flags:4, offset:16. -/
structure GskGLUniformInfo where
  changed : Bool
  format : Nat
  array_count : Nat
  flags : Nat
  offset : Nat
  deriving DecidableEq, Inhabited

/-- A zero-filled GskGLUniformInfo, the content of a freshly grown entry of
the uniform_info GArray (created with clear = TRUE). -/
def zeroUniformInfo : GskGLUniformInfo :=
  { changed := false, format := 0, array_count := 0, flags := 0, offset := 0 }

/-- ProgramInfo from gskgluniformstate.c: a possibly-NULL GArray of
GskGLUniformInfo plus the count of changed slots.  The derived default
(uniform_info = none, n_changed = 0) is the zero-filled entry of the
program_info GArray. -/
structure ProgramInfo where
  uniform_info : Option (List GskGLUniformInfo)
  n_changed : Nat
  deriving DecidableEq, Inhabited

/-- GskGLUniformState: the program-indexed registry plus the shared byte
pool.  The pool is modelled as its byte length together with a total map
from word offsets to stored scalar words; bytes the C code never wrote hold
the map's pre-existing value (matching the fact that g_byte_array growth
leaves new bytes unspecified — no proof below depends on the content of a
never-written word). -/
structure GskGLUniformState where
  program_info : List ProgramInfo
  uniform_data_len : Nat
  uniform_data : Nat → GLWord

/-- gsk_gl_uniform_state_new: empty registry, empty pool. -/
def gsk_gl_uniform_state_new : GskGLUniformState :=
  { program_info := [], uniform_data_len := 0, uniform_data := fun _ => 0 }

/-- alloc_uniform_data from gskgluniformstate.c, on the pool length only:
returns the aligned offset of the fresh region and the new pool length.
Alignment is GLIB_SIZEOF_VOID_P = 8 for sizes above 4 bytes, else 4. -/
def alloc_uniform_data (len size : Nat) : Nat × Nat :=
  let align : Nat := if 4 < size then 8 else 4
  let masked := len % align
  let padded := if masked ≠ 0 then len + (align - masked) else len
  (padded, padded + size)

/-- Outcome of get_uniform: a fatal g_assert violation, the g_critical
programming-error branch (the C function returns NULL there), or success
carrying the byte offset of the region the returned data pointer points
at. -/
inductive GetUniformOutcome where
  | assertFailed
  | formatError
  | ok (offset : Nat)
  deriving DecidableEq

/-- Creation path of get_uniform (the else branch of the fast-path test):
grow program_info when needed, install a fresh uniform_info GArray when the
program has none, grow it up to the location, allocate pool space, and
initialise the slot.  Faithful to the source, the fresh slot stores
changed = TRUE, the requested format, the (16-bit truncated) offset and
array_count = 0; its flags keep the zero of the freshly grown entry. -/
def get_uniform_create (st : GskGLUniformState) (program format array_count location : Nat) :
    GetUniformOutcome × GskGLUniformState :=
  let pis0 := st.program_info
  let needNew := pis0.length ≤ program ∨ (pis0.getD program default).uniform_info = none
  let pis1 :=
    if pis0.length ≤ program then pis0 ++ List.replicate (program + 1 - pis0.length) default
    else pis0
  let freshEntry : ProgramInfo := { uniform_info := some [], n_changed := 0 }
  let pis2 := if needNew then pis1.set program freshEntry else pis1
  let infos :=
    match (pis2.getD program default).uniform_info with
    | some a => a
    | none => []
  let infos1 :=
    if infos.length ≤ location then
      infos ++ List.replicate (location + 1 - infos.length) zeroUniformInfo
    else infos
  let alloc := alloc_uniform_data st.uniform_data_len (uniform_sizes format * array_count)
  let newInfo : GskGLUniformInfo :=
    { changed := true, format := format, array_count := 0,
      flags := (infos1.getD location zeroUniformInfo).flags, offset := alloc.1 % 65536 }
  let infos2 := infos1.set location newInfo
  let entry2 : ProgramInfo :=
    { pis2.getD program default with uniform_info := some infos2 }
  let pis3 := pis2.set program entry2
  (GetUniformOutcome.ok alloc.1,
   { program_info := pis3, uniform_data_len := alloc.2, uniform_data := st.uniform_data })

/-- get_uniform from gskgluniformstate.c.  The four g_asserts are checked
first; then the fast path applies when the program already has an
uniform_info array long enough for the location, in which case a slot of a
different format, or one whose stored array_count is below the requested
count, takes the g_critical error branch; otherwise the creation path
runs. -/
def get_uniform (st : GskGLUniformState) (program format array_count location : Nat) :
    GetUniformOutcome × GskGLUniformState :=
  if program = 0 ∨ 256 ≤ array_count ∨ GSK_GL_UNIFORM_FORMAT_LAST ≤ format ∨
      GL_MAX_UNIFORM_LOCATIONS ≤ location then
    (GetUniformOutcome.assertFailed, st)
  else
    match (st.program_info.getD program default).uniform_info with
    | some infos =>
      if location < infos.length then
        let info := infos.getD location default
        if format = info.format ∧ array_count ≤ info.array_count then
          (GetUniformOutcome.ok info.offset, st)
        else
          (GetUniformOutcome.formatError, st)
      else
        get_uniform_create st program format array_count location
    | none => get_uniform_create st program format array_count location

/-- program_changed from gskgluniformstate.c: when the slot is not already
marked changed, mark it and bump the program's n_changed counter. -/
def program_changed (st : GskGLUniformState) (program location : Nat) : GskGLUniformState :=
  match (st.program_info.getD program default).uniform_info with
  | none => st
  | some infos =>
    let info := infos.getD location default
    if info.changed = false then
      let pi := st.program_info.getD program default
      let entry : ProgramInfo :=
        { uniform_info := some (infos.set location { info with changed := true }),
          n_changed := pi.n_changed + 1 }
      { st with program_info := st.program_info.set program entry }
    else st

/-- REPLACE_UNIFORM macro: allocate a fresh pool region for the slot and
store its (16-bit truncated) offset in the slot; the real offset of the
fresh region is returned so the caller can write the new value there. -/
def replace_uniform (st : GskGLUniformState) (program location format count : Nat) :
    Nat × GskGLUniformState :=
  let alloc := alloc_uniform_data st.uniform_data_len (uniform_sizes format * count)
  match (st.program_info.getD program default).uniform_info with
  | none => (alloc.1, { st with uniform_data_len := alloc.2 })
  | some infos =>
    let info := infos.getD location default
    let infos2 := infos.set location { info with offset := alloc.1 % 65536 }
    let entry : ProgramInfo :=
      { st.program_info.getD program default with uniform_info := some infos2 }
    (alloc.1,
     { st with uniform_data_len := alloc.2,
               program_info := st.program_info.set program entry })

/-- gsk_gl_uniform_state_set1f: fetch or create the slot with format 1F and
count 1; on success compare the stored word with the new value and, when
they differ, move the slot to a fresh region, write the value there and run
program_changed.  Error outcomes of get_uniform leave the state as
get_uniform left it. -/
def gsk_gl_uniform_state_set1f (st : GskGLUniformState) (program location : Nat)
    (value0 : GLWord) : GskGLUniformState :=
  match get_uniform st program GSK_GL_UNIFORM_FORMAT_1F 1 location with
  | (GetUniformOutcome.ok off, st1) =>
    if st1.uniform_data off ≠ value0 then
      let r := replace_uniform st1 program location GSK_GL_UNIFORM_FORMAT_1F 1
      let st3 := { r.2 with uniform_data := fun n => if n = r.1 then value0 else r.2.uniform_data n }
      program_changed st3 program location
    else st1
  | (_, st1) => st1

/-- Loop body of gsk_gl_uniform_state_snapshot: walk the slots in location
order; each changed slot is emitted (with the info as it was when the
callback ran) and then has its changed flag and flags cleared. -/
def snapshot_loop : List GskGLUniformInfo → Nat →
    List (GskGLUniformInfo × Nat) × List GskGLUniformInfo
  | [], _ => ([], [])
  | info :: rest, i =>
    let r := snapshot_loop rest (i + 1)
    if info.changed then
      ((info, i) :: r.1, { info with changed := false, flags := 0 } :: r.2)
    else
      (r.1, info :: r.2)

/-- gsk_gl_uniform_state_snapshot: the list component is the sequence of
callback invocations (info, location).  The g_assert on program_id > 0, a
program_id beyond the registry, a zero n_changed counter or a NULL
uniform_info each return early with no callback and no state change;
otherwise every changed slot is emitted and cleared and n_changed is reset
to zero. -/
def gsk_gl_uniform_state_snapshot (st : GskGLUniformState) (program_id : Nat) :
    List (GskGLUniformInfo × Nat) × GskGLUniformState :=
  if program_id = 0 then ([], st)
  else if st.program_info.length ≤ program_id then ([], st)
  else
    let pi := st.program_info.getD program_id default
    if pi.n_changed = 0 then ([], st)
    else
      match pi.uniform_info with
      | none => ([], st)
      | some infos =>
        let r := snapshot_loop infos 0
        let entry : ProgramInfo := { uniform_info := some r.2, n_changed := 0 }
        (r.1, { st with program_info := st.program_info.set program_id entry })

/-- gsk_gl_uniform_state_clear_program: a program id of 0 or one at or
beyond the registry length returns with no change; otherwise the program's
uniform_info array is dropped (set to NULL) and its n_changed reset. -/
def gsk_gl_uniform_state_clear_program (st : GskGLUniformState) (program : Nat) :
    GskGLUniformState :=
  if program = 0 ∨ st.program_info.length ≤ program then st
  else
    let entry : ProgramInfo := { uniform_info := none, n_changed := 0 }
    { st with program_info := st.program_info.set program entry }

/-- Read the slot record of (program, location), when it exists. -/
def uniformSlot (st : GskGLUniformState) (program location : Nat) :
    Option GskGLUniformInfo :=
  match (st.program_info.getD program default).uniform_info with
  | none => none
  | some infos => infos.get? location

/-- The state reached from a fresh uniform state by one set1f call on
program 1, location 0, with value 2. -/
def exampleState1 : GskGLUniformState :=
  gsk_gl_uniform_state_set1f gsk_gl_uniform_state_new 1 0 2

/-- The state reached by a second, bit-identical set1f call. -/
def exampleState2 : GskGLUniformState :=
  gsk_gl_uniform_state_set1f exampleState1 1 0 2

/-- Claim C1, evaluated at the failing input.  After establishing the slot
(program 1, location 0) and repeating the identical set1f call, the slot is
marked changed, the repeated call left the stored value untouched, yet the
following snapshot reports the slot zero times — not the exactly-once the
claim requires — because the creation path of get_uniform marks the slot
changed without ever incrementing the program's n_changed counter, so
snapshot bails out on n_changed = 0. -/
theorem c1_identical_sets_record_no_change :
    (uniformSlot exampleState2 1 0).map GskGLUniformInfo.changed = some true ∧
    (gsk_gl_uniform_state_snapshot exampleState2 1).1.length = 0 ∧
    exampleState2.program_info = exampleState1.program_info ∧
    exampleState2.uniform_data 8 = 2 := by
  decide

/-- Claim C2, evaluated at the failing input.  On the established slot, a
get_uniform with a format that differs from the established one takes the
error branch and leaves the state unchanged (the part of the claim the code
satisfies), but so does a get_uniform with the matching format 1F and the
same element count 1 as the establishing call — the slot was created with
array_count = 0, so the fast-path test 1 ≤ 0 fails and the matching access
is sent down the same g_critical programming-error branch. -/
theorem c2_matching_format_takes_error_path :
    (get_uniform exampleState1 1 GSK_GL_UNIFORM_FORMAT_2F 1 0).1 =
      GetUniformOutcome.formatError ∧
    (get_uniform exampleState1 1 GSK_GL_UNIFORM_FORMAT_2F 1 0).2.program_info =
      exampleState1.program_info ∧
    (get_uniform exampleState1 1 GSK_GL_UNIFORM_FORMAT_1F 1 0).1 =
      GetUniformOutcome.formatError ∧
    (get_uniform exampleState1 1 GSK_GL_UNIFORM_FORMAT_1F 1 0).2.program_info =
      exampleState1.program_info ∧
    (get_uniform exampleState1 1 GSK_GL_UNIFORM_FORMAT_1F 1 0).2.uniform_data_len =
      exampleState1.uniform_data_len := by
  decide

/-- Claim C3, evaluated at the failing input.  In the reachable state after
one set1f, the slot (1, 0) has its changed flag set, yet snapshot of
program 1 invokes the callback zero times and returns the state unchanged —
the changed flag is not cleared — because n_changed is 0 in every reachable
state. -/
theorem c3_snapshot_misses_changed_slot :
    (uniformSlot exampleState1 1 0).map GskGLUniformInfo.changed = some true ∧
    (gsk_gl_uniform_state_snapshot exampleState1 1).1 = [] ∧
    (gsk_gl_uniform_state_snapshot exampleState1 1).2.program_info =
      exampleState1.program_info := by
  decide

/-!
Part 2: attachment state, translated from gskglattachmentstate.c.  The
private header declaring the struct is not part of the sources; the field
layout is taken from every use site in gskglattachmentstate.c and
gskglcommandqueue.c, and the texture-array length (16, one entry per
supported texture unit) from the data model of the design document.
-/

def GL_TEXTURE_1D : Nat := 3552

def GL_TEXTURE_2D : Nat := 3553

def GL_TEXTURE_3D : Nat := 32879

def GL_TEXTURE0 : Nat := 33984

def GL_TEXTURE16 : Nat := 34000

/-- One texture-unit entry: target enum, unit enum, texture id, changed
flag, and the never-bound flag the source calls initial. -/
structure GskGLBindTexture where
  target : Nat
  texture : Nat
  id : Nat
  changed : Bool
  initial : Bool
  deriving DecidableEq, Inhabited

/-- The framebuffer entry: id plus changed flag. -/
structure GskGLBindFramebuffer where
  id : Nat
  changed : Bool
  deriving DecidableEq, Inhabited

/-- GskGLAttachmentState.  The C texture array has one entry per supported
unit; it is modelled as a total map from the unit index, of which only
indices below 16 are ever read or written by the operations below. -/
structure GskGLAttachmentState where
  fbo : GskGLBindFramebuffer
  textures : Nat → GskGLBindTexture
  has_texture_change : Bool

/-- gsk_gl_attachment_state_new: framebuffer 0 unchanged, and every unit
entry initialised to target GL_TEXTURE_2D, unit enum GL_TEXTURE0, id 0,
unchanged, never bound. -/
def gsk_gl_attachment_state_new : GskGLAttachmentState :=
  { fbo := { id := 0, changed := false },
    textures := fun _ =>
      { target := GL_TEXTURE_2D, texture := GL_TEXTURE0, id := 0,
        changed := false, initial := true },
    has_texture_change := false }

/-- gsk_gl_attachment_state_bind_texture.  The two g_asserts on the target
and unit enums are fatal (modelled as none); otherwise, when the stored
(target, texture, id) triple differs from the arguments the entry is
overwritten and marked changed and no longer initial, and when it is
identical nothing changes at all. -/
def gsk_gl_attachment_state_bind_texture (s : GskGLAttachmentState)
    (target texture id : Nat) : Option GskGLAttachmentState :=
  if ¬(target = GL_TEXTURE_1D ∨ target = GL_TEXTURE_2D ∨ target = GL_TEXTURE_3D) then none
  else if ¬(GL_TEXTURE0 ≤ texture ∧ texture ≤ GL_TEXTURE16) then none
  else
    let idx := texture - GL_TEXTURE0
    let attach := s.textures idx
    if attach.target ≠ target ∨ attach.texture ≠ texture ∨ attach.id ≠ id then
      let entry : GskGLBindTexture :=
        { target := target, texture := texture, id := id, changed := true, initial := false }
      some { s with
        textures := fun j => if j = idx then entry else s.textures j,
        has_texture_change := true }
    else some s

/-- gsk_gl_attachment_state_bind_framebuffer: record the id and mark it
changed only when it differs from the stored one. -/
def gsk_gl_attachment_state_bind_framebuffer (s : GskGLAttachmentState)
    (id : Nat) : GskGLAttachmentState :=
  if s.fbo.id ≠ id then { s with fbo := { id := id, changed := true } } else s

/-- gsk_gl_attachment_state_save: duplicate the state with the framebuffer
changed flag and every unit changed flag cleared. -/
def gsk_gl_attachment_state_save (s : GskGLAttachmentState) : GskGLAttachmentState :=
  { fbo := { s.fbo with changed := false },
    textures := fun i => if i < 16 then { s.textures i with changed := false } else s.textures i,
    has_texture_change := s.has_texture_change }

/-- The externally observable GL binding state: the bound framebuffer and,
per texture unit, the target and texture id bound on it. -/
structure GLState where
  framebuffer : Nat
  unitTarget : Nat → Nat
  unitId : Nat → Nat

/-- gsk_gl_attachment_state_restore, acting on the observable GL state: it
re-issues glBindFramebuffer with the saved framebuffer id and, for every
unit of the saved snapshot that is not marked initial, glActiveTexture plus
glBindTexture with the saved target and id; units marked initial are left
as the GL state has them. -/
def gsk_gl_attachment_state_restore (saved : GskGLAttachmentState) (gl : GLState) : GLState :=
  { framebuffer := saved.fbo.id,
    unitTarget := fun i =>
      if i < 16 ∧ (saved.textures i).initial = false then (saved.textures i).target
      else gl.unitTarget i,
    unitId := fun i =>
      if i < 16 ∧ (saved.textures i).initial = false then (saved.textures i).id
      else gl.unitId i }

/-- A recorded bind call of the attachment tracker. -/
inductive AttachOp where
  | bindTexture (target texture id : Nat)
  | bindFramebuffer (id : Nat)

/-- Apply one recorded bind.  Both source functions only mutate the tracker
and issue no GL call, so the observable GL state is untouched by them. -/
def apply_attach_op (op : AttachOp) (s : GskGLAttachmentState) : Option GskGLAttachmentState :=
  match op with
  | AttachOp.bindTexture t u i => gsk_gl_attachment_state_bind_texture s t u i
  | AttachOp.bindFramebuffer i => some (gsk_gl_attachment_state_bind_framebuffer s i)

/-- Apply a sequence of recorded binds; none signals that some call in the
sequence died on a defensive assertion. -/
def apply_attach_ops : List AttachOp → GskGLAttachmentState → Option GskGLAttachmentState
  | [], s => some s
  | op :: rest, s =>
    match apply_attach_op op s with
    | none => none
    | some s2 => apply_attach_ops rest s2

/-- Claim C9: binding a texture with the exact (target, unit, id) triple the
unit already stores returns the state unchanged — entry, changed flag,
has_texture_change and all — and binding the framebuffer id already stored
likewise changes nothing, so no redundant bind is recorded for replay. -/
theorem c9_redundant_binds_are_noops (s : GskGLAttachmentState)
    (target texture id fbid : Nat)
    (htarget : target = GL_TEXTURE_1D ∨ target = GL_TEXTURE_2D ∨ target = GL_TEXTURE_3D)
    (hunit : GL_TEXTURE0 ≤ texture ∧ texture ≤ GL_TEXTURE16)
    (hstored : (s.textures (texture - GL_TEXTURE0)).target = target ∧
        (s.textures (texture - GL_TEXTURE0)).texture = texture ∧
        (s.textures (texture - GL_TEXTURE0)).id = id)
    (hfbo : s.fbo.id = fbid) :
    gsk_gl_attachment_state_bind_texture s target texture id = some s ∧
    gsk_gl_attachment_state_bind_framebuffer s fbid = s := by
  constructor
  · unfold gsk_gl_attachment_state_bind_texture
    rw [if_neg (by simp [htarget]), if_neg (by simp [hunit.1, hunit.2])]
    simp only [hstored.1, hstored.2.1, hstored.2.2, ne_eq, not_true_eq_false, false_or,
      or_self, if_false]
  · unfold gsk_gl_attachment_state_bind_framebuffer
    rw [if_neg (by simp [hfbo])]

/-- A concrete attachment state: the tracker reached from a fresh one by
bind_framebuffer 3 followed by bind_texture (GL_TEXTURE_2D, GL_TEXTURE0, 7)
on unit 0 (see exampleAttach_reachable). -/
def exampleAttach : GskGLAttachmentState :=
  { fbo := { id := 3, changed := true },
    textures := fun j =>
      if j = 0 then
        { target := GL_TEXTURE_2D, texture := GL_TEXTURE0, id := 7,
          changed := true, initial := false }
      else
        { target := GL_TEXTURE_2D, texture := GL_TEXTURE0, id := 0,
          changed := false, initial := true },
    has_texture_change := true }

/-- exampleAttach is reachable: it is what the two recorded binds above
produce on a fresh tracker. -/
theorem exampleAttach_reachable :
    apply_attach_ops
      [AttachOp.bindFramebuffer 3, AttachOp.bindTexture GL_TEXTURE_2D GL_TEXTURE0 7]
      gsk_gl_attachment_state_new = some exampleAttach := by
  norm_num [apply_attach_ops, apply_attach_op, gsk_gl_attachment_state_bind_texture,
    gsk_gl_attachment_state_bind_framebuffer, gsk_gl_attachment_state_new, exampleAttach,
    GL_TEXTURE0, GL_TEXTURE16, GL_TEXTURE_2D, GL_TEXTURE_1D, GL_TEXTURE_3D]

/-- Witness for c9_redundant_binds_are_noops at a concrete state: rebinding
the identical texture triple and the identical framebuffer id on
exampleAttach is a no-op. -/
theorem c9_redundant_binds_are_noops_witness :
    gsk_gl_attachment_state_bind_texture exampleAttach GL_TEXTURE_2D GL_TEXTURE0 7 =
      some exampleAttach ∧
    gsk_gl_attachment_state_bind_framebuffer exampleAttach 3 = exampleAttach :=
  c9_redundant_binds_are_noops exampleAttach GL_TEXTURE_2D GL_TEXTURE0 7 3
    (Or.inr (Or.inl rfl)) (by decide) (by decide) (by decide)

/-- Claim C7: when the GL bindings at save time agree with the tracker on
the framebuffer and on every unit the tracker has ever bound (units still
marked initial were never touched by the tracker), then whatever bind calls
are recorded between save and restore — calls that issue no GL commands —
restoring the snapshot returned by save puts the observable GL state back
exactly as it was at save time. -/
theorem c7_save_restore_round_trip (s s1 : GskGLAttachmentState)
    (ops : List AttachOp) (gl : GLState)
    (hops : apply_attach_ops ops s = some s1)
    (hfb : gl.framebuffer = s.fbo.id)
    (htex : ∀ i, i < 16 → (s.textures i).initial = false →
        gl.unitTarget i = (s.textures i).target ∧ gl.unitId i = (s.textures i).id) :
    gsk_gl_attachment_state_restore (gsk_gl_attachment_state_save s) gl = gl := by
  obtain ⟨fb, ut, uid⟩ := gl
  unfold gsk_gl_attachment_state_restore gsk_gl_attachment_state_save
  simp only [GLState.mk.injEq]
  refine ⟨hfb.symm, funext fun i => ?_, funext fun i => ?_⟩
  · by_cases hi : i < 16
    · simp only [hi, true_and]
      by_cases hini : (s.textures i).initial = false
      · simp only [hi, hini, if_true, if_pos, and_self]
        exact ((htex i hi hini).1).symm
      · simp [hini]
    · simp [hi]
  · by_cases hi : i < 16
    · simp only [hi, true_and]
      by_cases hini : (s.textures i).initial = false
      · simp only [hi, hini, if_true, if_pos, and_self]
        exact ((htex i hi hini).2).symm
      · simp [hini]
    · simp [hi]

/-- A concrete observable GL state matching exampleAttach. -/
def exampleGL : GLState :=
  { framebuffer := 3,
    unitTarget := fun i => if i = 0 then GL_TEXTURE_2D else 0,
    unitId := fun i => if i = 0 then 7 else 0 }

/-- Witness for c7_save_restore_round_trip: on exampleAttach with matching
GL state, with one intervening texture bind recorded between save and
restore, restore brings the GL state back to exampleGL. -/
theorem c7_save_restore_round_trip_witness :
    gsk_gl_attachment_state_restore (gsk_gl_attachment_state_save exampleAttach) exampleGL =
      exampleGL := by
  refine c7_save_restore_round_trip exampleAttach
    (gsk_gl_attachment_state_bind_framebuffer exampleAttach 9)
    [AttachOp.bindFramebuffer 9] exampleGL rfl (by decide) ?_
  intro i hi hini
  by_cases h0 : i = 0
  · subst h0
    exact ⟨by decide, by decide⟩
  · simp [exampleAttach, h0] at hini

/-!
Part 3: the growable vertex buffer, translated from gskglbuffer.c.
-/

def N_BUFFERS : Nat := 2

def RESERVED_SIZE : Nat := 1024

/-- One GPU-side shadow allocation.  size_on_gpu is the byte size of the
current GPU allocation; uploaded is the content of the GPU buffer, of which
the prefix written by the most recent glBufferSubData is the observable
upload (earlier longer uploads leave stale elements behind it).  Buffer ids
handed out by glGenBuffers carry no information the design observes and are
kept at 0. -/
structure GskGLBufferShadow (α : Type) where
  id : Nat
  size_on_gpu : Nat
  uploaded : List α

/-- gsk_gl_buffer_shadow_init: a fresh GPU allocation of
element_size * RESERVED_SIZE bytes with nothing uploaded yet. -/
def gsk_gl_buffer_shadow_init (α : Type) (element_size : Nat) : GskGLBufferShadow α :=
  { id := 0, size_on_gpu := element_size * RESERVED_SIZE, uploaded := [] }

/-- GskGLBuffer: the host-side staging GArray (contents plus retained
capacity), the N_BUFFERS rotating shadows, the GL target enum, the element
size in bytes and the index of the current shadow. -/
structure GskGLBuffer (α : Type) where
  data : List α
  cap : Nat
  shadows : List (GskGLBufferShadow α)
  target : Nat
  element_size : Nat
  current : Nat

/-- gsk_gl_buffer_new: empty host array with RESERVED_SIZE capacity and
N_BUFFERS freshly initialised shadows, current = 0. -/
def gsk_gl_buffer_new (α : Type) (target element_size : Nat) : GskGLBuffer α :=
  { data := [], cap := RESERVED_SIZE,
    shadows := List.replicate N_BUFFERS (gsk_gl_buffer_shadow_init α element_size),
    target := target, element_size := element_size, current := 0 }

/-- gsk_gl_buffer_shadow_submit: upload buffer->len elements.  When the
byte count exceeds the shadow's GPU allocation, the GPU buffer is destroyed
and recreated page-aligned with headroom ((to_upload & ~0xFFF) + 4 * 4096)
and the whole host content written into the fresh allocation; otherwise
glBufferSubData overwrites the leading region of the existing allocation,
leaving any stale elements of an earlier longer upload behind it. -/
def gsk_gl_buffer_shadow_submit (shadow : GskGLBufferShadow α) (element_size : Nat)
    (buffer : List α) : GskGLBufferShadow α :=
  let to_upload := buffer.length * element_size
  if shadow.size_on_gpu < to_upload then
    { id := shadow.id, size_on_gpu := to_upload / 4096 * 4096 + 4 * 4096,
      uploaded := buffer }
  else
    { shadow with uploaded := buffer ++ shadow.uploaded.drop buffer.length }

/-- gsk_gl_buffer_submit: upload the host contents into the current shadow,
rotate to the next shadow, and reset the host length to zero — the host
GArray keeps its capacity. -/
def gsk_gl_buffer_submit (b : GskGLBuffer α) : GskGLBuffer α :=
  let shadow := gsk_gl_buffer_shadow_submit
    (b.shadows.getD b.current (gsk_gl_buffer_shadow_init α b.element_size))
    b.element_size b.data
  { b with shadows := b.shadows.set b.current shadow,
           current := (b.current + 1) % N_BUFFERS,
           data := [] }

/-- gsk_gl_buffer_advance: reserve count elements at the end of the host
array, growing it (and, if needed, its capacity), and return the offset of
the reserved region.  The reserved elements are unwritten until the caller
fills them (see gsk_gl_buffer_write_region). -/
def gsk_gl_buffer_advance [Inhabited α] (b : GskGLBuffer α) (count : Nat) :
    Nat × GskGLBuffer α :=
  (b.data.length,
   { b with data := b.data ++ List.replicate count default,
            cap := max b.cap (b.data.length + count) })

/-- The caller's write through the pointer returned by advance: overwrite
vals.length elements of the host array starting at offset. -/
def gsk_gl_buffer_write_region (b : GskGLBuffer α) (offset : Nat) (vals : List α) :
    GskGLBuffer α :=
  { b with data := b.data.take offset ++ vals ++ b.data.drop (offset + vals.length) }


/-- Helper: reading an in-range index that was just set yields the stored
value. -/
theorem list_getD_set_self {α : Type} (l : List α) (i : Nat) (a d : α)
    (h : i < l.length) : (l.set i a).getD i d = a := by
  induction l generalizing i with
  | nil => simp at h
  | cons x xs ih =>
    cases i with
    | zero => rfl
    | succ j =>
      simpa using ih j (by simpa using h)

/-- Helper for C8: submit hands the current shadow exactly the host
contents — the region written by the glBufferSubData call is the host
array, element for element. -/
theorem submit_uploads_host_contents {α : Type} (b : GskGLBuffer α)
    (hcur : b.current < b.shadows.length) :
    ((gsk_gl_buffer_submit b).shadows.getD b.current
        (gsk_gl_buffer_shadow_init α b.element_size)).uploaded.take b.data.length =
      b.data := by
  unfold gsk_gl_buffer_submit
  simp only
  rw [list_getD_set_self _ _ _ _ hcur]
  unfold gsk_gl_buffer_shadow_submit
  dsimp only
  split
  · simp
  · simpa using List.take_left b.data _

/-- Claim C8: starting from a host array that is empty since the last
reset, advance n followed by writing n values into the returned region and
a submit uploads exactly those values to the current GPU shadow; the first
advance after submit returns offset 0 because submit reset the host length
to zero; and the host capacity (grown to n by the advance) is retained
across submit. -/
theorem c8_advance_submit_round_trip {α : Type} [Inhabited α]
    (b : GskGLBuffer α) (n : Nat) (vals : List α)
    (hempty : b.data = []) (hlen : vals.length = n)
    (hcur : b.current < b.shadows.length) :
    ((gsk_gl_buffer_submit (gsk_gl_buffer_write_region (gsk_gl_buffer_advance b n).2
        (gsk_gl_buffer_advance b n).1 vals)).shadows.getD b.current
        (gsk_gl_buffer_shadow_init α b.element_size)).uploaded.take n = vals ∧
    (gsk_gl_buffer_advance (gsk_gl_buffer_submit (gsk_gl_buffer_write_region
        (gsk_gl_buffer_advance b n).2 (gsk_gl_buffer_advance b n).1 vals)) 1).1 = 0 ∧
    (gsk_gl_buffer_submit (gsk_gl_buffer_write_region (gsk_gl_buffer_advance b n).2
        (gsk_gl_buffer_advance b n).1 vals)).cap = max b.cap n := by
  have hdata : (gsk_gl_buffer_write_region (gsk_gl_buffer_advance b n).2
      (gsk_gl_buffer_advance b n).1 vals).data = vals := by
    simp [gsk_gl_buffer_write_region, gsk_gl_buffer_advance, hempty, hlen]
  refine ⟨?_, ?_, ?_⟩
  · have h := submit_uploads_host_contents
      (gsk_gl_buffer_write_region (gsk_gl_buffer_advance b n).2
        (gsk_gl_buffer_advance b n).1 vals)
      (by simpa [gsk_gl_buffer_write_region, gsk_gl_buffer_advance] using hcur)
    rw [hdata, hlen] at h
    simpa [gsk_gl_buffer_write_region, gsk_gl_buffer_advance] using h
  · simp [gsk_gl_buffer_advance, gsk_gl_buffer_submit]
  · simp [gsk_gl_buffer_submit, gsk_gl_buffer_write_region, gsk_gl_buffer_advance, hempty]

/-- Witness for c8_advance_submit_round_trip on a fresh Int buffer with
three concrete values. -/
theorem c8_advance_submit_round_trip_witness :
    ((gsk_gl_buffer_submit (gsk_gl_buffer_write_region
        (gsk_gl_buffer_advance (gsk_gl_buffer_new Int 34962 16) 3).2
        (gsk_gl_buffer_advance (gsk_gl_buffer_new Int 34962 16) 3).1
        [5, 6, 7])).shadows.getD 0
        (gsk_gl_buffer_shadow_init Int 16)).uploaded.take 3 = [5, 6, 7] ∧
    (gsk_gl_buffer_advance (gsk_gl_buffer_submit (gsk_gl_buffer_write_region
        (gsk_gl_buffer_advance (gsk_gl_buffer_new Int 34962 16) 3).2
        (gsk_gl_buffer_advance (gsk_gl_buffer_new Int 34962 16) 3).1 [5, 6, 7])) 1).1 = 0 ∧
    (gsk_gl_buffer_submit (gsk_gl_buffer_write_region
        (gsk_gl_buffer_advance (gsk_gl_buffer_new Int 34962 16) 3).2
        (gsk_gl_buffer_advance (gsk_gl_buffer_new Int 34962 16) 3).1 [5, 6, 7])).cap =
      max 1024 3 :=
  c8_advance_submit_round_trip (gsk_gl_buffer_new Int 34962 16) 3 [5, 6, 7]
    rfl rfl (by decide)

/-!
Part 4: the command queue, translated from the final revision of
gskglcommandqueue.c (the array-of-batches design with a next_batch_index
link, side arrays batch_draws / batch_binds / batch_uniforms and a
tail_batch_index).
-/

def GL_ARRAY_BUFFER : Nat := 34962

def GSK_GL_N_VERTICES : Nat := 6

/-- GskGLDrawVertex: two position floats and two texture-coordinate
floats. -/
structure GskGLDrawVertex where
  position0 : GLWord
  position1 : GLWord
  uv0 : GLWord
  uv1 : GLWord
  deriving DecidableEq, Inhabited

/-- GskGLCommandDraw of the final revision: target framebuffer, the three
(offset, count) windows into the uniform / bind / vertex side arrays.  The
counts live in bit-fields (uniform_count:11, bind_count:5, vbo_count:16),
so stores truncate with the field modulus. -/
structure GskGLCommandDraw where
  framebuffer : Nat
  uniform_count : Nat
  bind_count : Nat
  vbo_count : Nat
  vbo_offset : Nat
  uniform_offset : Nat
  bind_offset : Nat
  deriving DecidableEq, Inhabited

/-- GskGLCommandUniform of the final revision: the snapshotted info record
plus the location. -/
structure GskGLCommandUniform where
  info : GskGLUniformInfo
  location : Nat
  deriving DecidableEq, Inhabited

/-- GskGLCommandBind: texture unit enum in a 5-bit field and texture id in
a 27-bit field. -/
structure GskGLCommandBind where
  texture : Nat
  id : Nat
  deriving DecidableEq, Inhabited

/-- GskGLCommandKind of the final revision. -/
inductive GskGLCommandKind where
  | clear
  | pushDebugGroup
  | popDebugGroup
  | draw
  deriving DecidableEq, Inhabited

/-- The union payload of a batch: draw data, a debug-group string (kept
abstract as an index into the string chunk), or the clear bits plus target
framebuffer. -/
inductive GskGLBatchPayload where
  | draw (d : GskGLCommandDraw)
  | debugGroup (group : Nat)
  | clearInfo (bits framebuffer : Nat)
  deriving DecidableEq, Inhabited

/-- GskGLCommandBatch: the integer link to the next batch (-1 = last), the
kind tag, the program id and the union payload. -/
structure GskGLCommandBatch where
  next_batch_index : Int
  kind : GskGLCommandKind
  program : Nat
  payload : GskGLBatchPayload
  deriving DecidableEq, Inhabited

/-- GskGLCommandQueue (final revision), restricted to the fields the
recording operations touch.  The GdkGLContext, the GObject plumbing and the
debug-group string chunk are omitted. -/
structure GskGLCommandQueue where
  batches : List GskGLCommandBatch
  batch_uniforms : List GskGLCommandUniform
  batch_binds : List GskGLCommandBind
  attachments : GskGLAttachmentState
  uniforms : GskGLUniformState
  vertices : GskGLBuffer GskGLDrawVertex
  saved_state : List GskGLAttachmentState
  autorelease_framebuffers : List Nat
  autorelease_textures : List Nat
  max_texture_size : Int
  tail_batch_index : Int
  in_draw : Bool

/-- gsk_gl_command_queue_init: empty arrays, fresh attachment / uniform /
buffer state, max_texture_size = -1; the bit-field in_draw and the
tail_batch_index start zero-initialised by the GObject allocator. -/
def gsk_gl_command_queue_init : GskGLCommandQueue :=
  { batches := [], batch_uniforms := [], batch_binds := [],
    attachments := gsk_gl_attachment_state_new,
    uniforms := gsk_gl_uniform_state_new,
    vertices := gsk_gl_buffer_new GskGLDrawVertex GL_ARRAY_BUFFER 16,
    saved_state := [], autorelease_framebuffers := [], autorelease_textures := [],
    max_texture_size := -1, tail_batch_index := 0, in_draw := false }

/-- gsk_gl_command_queue_new of the final revision: it refs the GL context
and returns the instance — it contains no glGetIntegerv query, so the
max_texture_size written by init (-1) is never replaced by the driver
maximum. -/
def gsk_gl_command_queue_new : GskGLCommandQueue :=
  gsk_gl_command_queue_init

/-- gsk_gl_command_queue_bind_framebuffer: delegate to the attachment
tracker. -/
def gsk_gl_command_queue_bind_framebuffer (q : GskGLCommandQueue) (framebuffer : Nat) :
    GskGLCommandQueue :=
  { q with attachments :=
      gsk_gl_attachment_state_bind_framebuffer q.attachments framebuffer }

/-- gsk_gl_command_queue_begin_draw: guarded by
g_return_if_fail (in_draw == FALSE), it appends a DRAW batch whose windows
start at the current ends of the side arrays and of the vertex buffer.
Faithful to the source, the function does not set in_draw to TRUE. -/
def gsk_gl_command_queue_begin_draw (q : GskGLCommandQueue) (program : Nat) :
    GskGLCommandQueue :=
  if q.in_draw = true then q
  else
    let d : GskGLCommandDraw :=
      { framebuffer := 0, uniform_count := 0, uniform_offset := q.batch_uniforms.length,
        bind_count := 0, bind_offset := q.batch_binds.length,
        vbo_count := 0, vbo_offset := q.vertices.data.length }
    let batch : GskGLCommandBatch :=
      { next_batch_index := -1, kind := GskGLCommandKind.draw, program := program,
        payload := GskGLBatchPayload.draw d }
    { q with batches := q.batches ++ [batch] }

/-- Bump the vbo_count of a batch through its union payload, truncating at
the 16-bit field width. -/
def batch_add_vbo_count (b : GskGLCommandBatch) (n : Nat) : GskGLCommandBatch :=
  match b.payload with
  | GskGLBatchPayload.draw d =>
    { b with payload :=
        GskGLBatchPayload.draw { d with vbo_count := (d.vbo_count + n) % 65536 } }
  | p => { b with payload := p }

/-- gsk_gl_command_queue_add_vertices: guarded by
g_return_val_if_fail (in_draw == TRUE, NULL) — outside a draw bracket it
returns NULL having appended nothing.  Inside one, it extends the open
batch's vertex count by GSK_GL_N_VERTICES and reserves that many staging
elements; with supplied vertices it copies them in and returns NULL (none),
without it it hands back the reserved offset (some offset) for zero-copy
filling. -/
def gsk_gl_command_queue_add_vertices (q : GskGLCommandQueue)
    (vertices : Option (List GskGLDrawVertex)) : Option Nat × GskGLCommandQueue :=
  if q.in_draw ≠ true then (none, q)
  else
    let li := q.batches.length - 1
    let newBatches :=
      q.batches.set li (batch_add_vbo_count (q.batches.getD li default) GSK_GL_N_VERTICES)
    let q1 := { q with batches := newBatches }
    let adv := gsk_gl_buffer_advance q1.vertices GSK_GL_N_VERTICES
    match vertices with
    | some vs =>
      (none, { q1 with vertices :=
          gsk_gl_buffer_write_region adv.2 adv.1 (vs.take GSK_GL_N_VERTICES) })
    | none => (some adv.1, { q1 with vertices := adv.2 })

/-- The texture binds end_draw copies out of the attachment state: one
GskGLCommandBind per unit marked changed, in unit order, with the 5-bit and
27-bit field truncations of the stores. -/
def collect_changed_binds (textures : Nat → GskGLBindTexture) : List GskGLCommandBind :=
  (List.range 16).filterMap fun i =>
    let t := textures i
    if t.changed then some { texture := t.texture % 32, id := t.id % 134217728 }
    else none

/-- Clear the changed flag of every texture unit, as the end_draw loop
does. -/
def clear_texture_changed (textures : Nat → GskGLBindTexture) : Nat → GskGLBindTexture :=
  fun i => if i < 16 then { textures i with changed := false } else textures i

/-- gsk_gl_command_queue_end_draw: guarded by batches->len > 0 and by
g_return_if_fail (in_draw == TRUE), and by the g_assert that the open batch
is a DRAW batch.  It stamps the batch framebuffer from the attachment
state (clearing the fbo changed flag), snapshots the program's changed
uniforms into batch_uniforms, copies every changed texture unit into
batch_binds clearing its changed flag, links the previous tail batch to
this one, makes this batch the tail and leaves the draw bracket. -/
def gsk_gl_command_queue_end_draw (q : GskGLCommandQueue) : GskGLCommandQueue :=
  if q.batches.length = 0 then q
  else if q.in_draw ≠ true then q
  else
    let li := q.batches.length - 1
    let batch := q.batches.getD li default
    if batch.kind ≠ GskGLCommandKind.draw then q
    else
      let d0 :=
        match batch.payload with
        | GskGLBatchPayload.draw d => d
        | _ => default
      let snap := gsk_gl_uniform_state_snapshot q.uniforms batch.program
      let newUniforms := q.batch_uniforms ++
        snap.1.map fun e => { info := e.1, location := e.2 }
      let binds := collect_changed_binds q.attachments.textures
      let d1 : GskGLCommandDraw :=
        { d0 with
          framebuffer := q.attachments.fbo.id,
          uniform_offset := q.batch_uniforms.length,
          uniform_count := (newUniforms.length - q.batch_uniforms.length) % 2048,
          bind_offset := q.batch_binds.length,
          bind_count := binds.length % 32 }
      let batches1 := q.batches.set li { batch with payload := GskGLBatchPayload.draw d1 }
      let batches2 :=
        if -1 < q.tail_batch_index then
          let t := q.tail_batch_index.toNat
          batches1.set t { batches1.getD t default with next_batch_index := Int.ofNat li }
        else batches1
      { q with
        batches := batches2,
        batch_uniforms := newUniforms,
        batch_binds := q.batch_binds ++ binds,
        attachments :=
          { fbo := { q.attachments.fbo with changed := false },
            textures := clear_texture_changed q.attachments.textures,
            has_texture_change := q.attachments.has_texture_change },
        uniforms := snap.2,
        tail_batch_index := Int.ofNat li,
        in_draw := false }

/-- Environment of GL texture-allocation effects for create_texture: the
next id glGenTextures would hand out, plus the record of every glTexImage2D
allocation performed (id, width, height). -/
structure GLTextureEnv where
  next_id : Nat
  allocations : List (Nat × Int × Int)
  deriving DecidableEq, Inhabited

/-- A fresh GL texture environment. -/
def glTextureEnvInit : GLTextureEnv := { next_id := 1, allocations := [] }

/-- gsk_gl_command_queue_create_texture: when the requested width or height
exceeds max_texture_size the sentinel -1 is returned with no GL call at
all; otherwise the queue saves its attachment state, generates an id,
binds and parameterises the texture, allocates storage with glTexImage2D
and restores, returning the fresh id.  (The save and restore bracket
leaves the tracked attachments as they were; the transient GL binds inside
the bracket are not tracked here — claim C6 concerns only the sentinel and
the allocation calls.) -/
def gsk_gl_command_queue_create_texture (q : GskGLCommandQueue) (env : GLTextureEnv)
    (width height min_filter mag_filter : Int) : Int × GskGLCommandQueue × GLTextureEnv :=
  if q.max_texture_size < width ∨ q.max_texture_size < height then (-1, q, env)
  else
    let texture_id := env.next_id
    let env2 : GLTextureEnv :=
      { next_id := texture_id + 1,
        allocations := env.allocations ++ [(texture_id, width, height)] }
    (Int.ofNat texture_id, q, env2)

/-- The queue state after binding framebuffer 3 and opening a draw with
program 7 on a fresh queue. -/
def exampleQueue : GskGLCommandQueue :=
  gsk_gl_command_queue_begin_draw
    (gsk_gl_command_queue_bind_framebuffer gsk_gl_command_queue_new 3) 7

/-- Six zero vertices, one quad. -/
def sixVertices : List GskGLDrawVertex :=
  List.replicate 6 { position0 := 0, position1 := 0, uv0 := 0, uv1 := 0 }

/-- Claim C5, evaluated at the failing input.  The first conjunct shows the
part the code satisfies: outside a draw bracket (the fresh queue),
add_vertices fails the defensive check, appends nothing and returns NULL.
The second and third conjuncts show the divergence: even directly after
begin_draw the queue is still not inside a draw bracket — begin_draw never
sets the in_draw flag — so add_vertices takes the same failure path and
appends neither vertices nor a vertex count, where the claim requires it to
succeed there. -/
theorem c5_add_vertices_always_fails :
    gsk_gl_command_queue_add_vertices gsk_gl_command_queue_new (some sixVertices) =
      (none, gsk_gl_command_queue_new) ∧
    exampleQueue.in_draw = false ∧
    gsk_gl_command_queue_add_vertices exampleQueue (some sixVertices) =
      (none, exampleQueue) := by
  refine ⟨?_, rfl, ?_⟩
  · unfold gsk_gl_command_queue_add_vertices
    rfl
  · unfold gsk_gl_command_queue_add_vertices
    rfl

/-- Claim C4, evaluated at the failing input.  In the recording sequence
bind_framebuffer 3; begin_draw 7; end_draw, the end_draw call returns the
queue unchanged: its draw-bracket precondition fails because begin_draw
never set the in_draw flag.  The open batch keeps framebuffer 0 instead of
being stamped with the attachment state's framebuffer 3, no uniforms or
binds are appended, and the attachment fbo changed flag is not cleared. -/
theorem c4_end_draw_records_nothing :
    gsk_gl_command_queue_end_draw exampleQueue = exampleQueue ∧
    exampleQueue.attachments.fbo.id = 3 ∧
    exampleQueue.attachments.fbo.changed = true ∧
    (exampleQueue.batches.getD 0 default).payload =
      GskGLBatchPayload.draw
        { framebuffer := 0, uniform_count := 0, bind_count := 0, vbo_count := 0,
          vbo_offset := 0, uniform_offset := 0, bind_offset := 0 } ∧
    exampleQueue.batch_uniforms = [] ∧
    exampleQueue.batch_binds = [] := by
  refine ⟨?_, rfl, rfl, rfl, rfl, rfl⟩
  unfold gsk_gl_command_queue_end_draw
  rfl

/-- Claim C6, evaluated at the failing input.  On a queue fresh from
gsk_gl_command_queue_new, max_texture_size is still the -1 stored by init —
the constructor of this revision never queries GL_MAX_TEXTURE_SIZE — so a
16 by 16 request, far inside any conformant driver maximum, is rejected
with the sentinel -1 and no allocation, where the claim requires a valid id
for dimensions within the discovered maximum. -/
theorem c6_create_texture_always_fails :
    gsk_gl_command_queue_new.max_texture_size = -1 ∧
    gsk_gl_command_queue_create_texture gsk_gl_command_queue_new glTextureEnvInit
      16 16 9728 9728 = (-1, gsk_gl_command_queue_new, glTextureEnvInit) := by
  refine ⟨rfl, ?_⟩
  unfold gsk_gl_command_queue_create_texture
  rfl

/-!
Part 5: claim C10 — gsk_gl_uniform_state_clear_program, proved in general.
-/

/-- Helper: in-range get? of a freshly set index yields the value. -/
theorem list_get?_set_self {α : Type} (l : List α) (i : Nat) (a : α)
    (h : i < l.length) : (l.set i a).get? i = some a := by
  induction l generalizing i with
  | nil => simp at h
  | cons x xs ih =>
    cases i with
    | zero => rfl
    | succ j => simpa using ih j (by simpa using h)

/-- Helper: in-range getD of replicate yields the replicated value. -/
theorem list_getD_replicate {α : Type} (n i : Nat) (a d : α) (h : i < n) :
    (List.replicate n a).getD i d = a := by
  have hlen : i < (List.replicate n a).length := by simpa using h
  rw [List.getD_eq_getElem _ _ hlen, List.getElem_replicate]

/-- Helper: getD agrees with a successful get?. -/
theorem list_getD_of_get? {α : Type} {l : List α} {i : Nat} {a : α} (d : α)
    (h : l.get? i = some a) : l.getD i d = a := by
  induction l generalizing i with
  | nil => simp at h
  | cons x xs ih =>
    cases i with
    | zero =>
      simp only [List.get?_cons_zero, Option.some.injEq] at h
      simpa using h
    | succ j => simpa using ih (by simpa using h)

/-- Helper: a successful get? is in range. -/
theorem list_get?_some_lt {α : Type} {l : List α} {i : Nat} {a : α}
    (h : l.get? i = some a) : i < l.length := by
  by_contra hge
  rw [List.get?_eq_none.mpr (Nat.le_of_not_lt hge)] at h
  exact Option.noConfusion h

/-- Helper: program_changed leaves the state alone whenever the slot is
already marked changed — the source increments n_changed only on a
false-to-true transition. -/
theorem program_changed_noop_when_changed (st : GskGLUniformState) (p l : Nat)
    (h : (uniformSlot st p l).map GskGLUniformInfo.changed = some true) :
    program_changed st p l = st := by
  unfold uniformSlot at h
  unfold program_changed
  rcases hpi : (st.program_info.getD p default).uniform_info with _ | infos
  · rfl
  · rw [hpi] at h
    dsimp only at h ⊢
    rcases hg : infos.get? l with _ | info
    · rw [hg] at h
      exact absurd h (by simp)
    · rw [hg] at h
      have hch : info.changed = true := by simpa using h
      rw [list_getD_of_get? default hg, if_neg (by simp [hch])]

/-- Helper: REPLACE_UNIFORM only moves the slot to a fresh pool offset; the
changed flag, format, array_count and flags of the slot survive it. -/
theorem replace_uniform_slot (st : GskGLUniformState) (p l f c : Nat)
    (infos : List GskGLUniformInfo) (info : GskGLUniformInfo)
    (hpi : (st.program_info.getD p default).uniform_info = some infos)
    (hl : infos.get? l = some info)
    (hp : p < st.program_info.length) :
    uniformSlot (replace_uniform st p l f c).2 p l =
      some { info with offset :=
        (alloc_uniform_data st.uniform_data_len (uniform_sizes f * c)).1 % 65536 } := by
  unfold replace_uniform
  rw [hpi]
  unfold uniformSlot
  dsimp only
  rw [list_getD_set_self _ _ _ _ hp]
  dsimp only
  rw [list_getD_of_get? default hl]
  exact list_get?_set_self _ _ _ (list_get?_some_lt hl)

/-- Helper: on a program with no uniform_info array (never written or just
cleared), get_uniform's creation path returns ok with the fresh pool
offset and installs a slot that is unconditionally marked changed, keeping
the program inside the registry bounds. -/
theorem get_uniform_create_slot (st : GskGLUniformState) (p f a l : Nat)
    (hnone : (st.program_info.getD p default).uniform_info = none) :
    (get_uniform_create st p f a l).1 =
      GetUniformOutcome.ok
        (alloc_uniform_data st.uniform_data_len (uniform_sizes f * a)).1 ∧
    uniformSlot (get_uniform_create st p f a l).2 p l =
      some { changed := true, format := f, array_count := 0, flags := 0,
             offset :=
               (alloc_uniform_data st.uniform_data_len (uniform_sizes f * a)).1 % 65536 } ∧
    p < (get_uniform_create st p f a l).2.program_info.length := by
  have hneed : st.program_info.length ≤ p ∨
      (st.program_info.getD p default).uniform_info = none := Or.inr hnone
  unfold get_uniform_create uniformSlot
  by_cases hlen : st.program_info.length ≤ p
  · have h1 : p < (st.program_info ++
        List.replicate (p + 1 - st.program_info.length) default).length := by
      rw [List.length_append, List.length_replicate]
      omega
    simp only [if_pos hneed, if_pos hlen]
    rw [list_getD_set_self _ _ _ _ h1]
    dsimp only
    rw [list_getD_set_self _ _ _ _ (by simpa using h1)]
    dsimp only
    simp only [List.length_nil, Nat.zero_le, if_pos, List.nil_append, Nat.sub_zero]
    rw [list_getD_replicate _ _ _ _ (Nat.lt_succ_self l)]
    refine ⟨trivial, ?_, ?_⟩
    · rw [list_get?_set_self _ _ _ (by simpa using Nat.lt_succ_self l)]
      rfl
    · simpa using h1
  · have h1 : p < st.program_info.length := Nat.lt_of_not_le hlen
    simp only [if_pos hneed, if_neg hlen]
    rw [list_getD_set_self _ _ _ _ h1]
    dsimp only
    rw [list_getD_set_self _ _ _ _ (by simpa using h1)]
    dsimp only
    simp only [List.length_nil, Nat.zero_le, if_pos, List.nil_append, Nat.sub_zero]
    rw [list_getD_replicate _ _ _ _ (Nat.lt_succ_self l)]
    refine ⟨trivial, ?_, ?_⟩
    · rw [list_get?_set_self _ _ _ (by simpa using Nat.lt_succ_self l)]
      rfl
    · simpa using h1

/-- Helper: a set1f on a program whose uniform_info array is absent goes
through the creation path and leaves the slot marked changed, whatever the
value — the creation path sets the flag and neither branch of the value
comparison can clear it again. -/
theorem set1f_creation_marks_changed (st : GskGLUniformState) (p l : Nat) (v : GLWord)
    (hp : 0 < p) (hl : l < GL_MAX_UNIFORM_LOCATIONS)
    (hnone : (st.program_info.getD p default).uniform_info = none) :
    (uniformSlot (gsk_gl_uniform_state_set1f st p l v) p l).map
      GskGLUniformInfo.changed = some true := by
  have hguard : ¬(p = 0 ∨ 256 ≤ (1 : Nat) ∨
      GSK_GL_UNIFORM_FORMAT_LAST ≤ GSK_GL_UNIFORM_FORMAT_1F ∨
      GL_MAX_UNIFORM_LOCATIONS ≤ l) := by
    rintro (h | h | h | h)
    · exact absurd h (Nat.pos_iff_ne_zero.mp hp)
    · exact absurd h (by decide)
    · exact absurd h (by decide)
    · exact absurd h (Nat.not_le.mpr hl)
  have hgu : get_uniform st p GSK_GL_UNIFORM_FORMAT_1F 1 l =
      get_uniform_create st p GSK_GL_UNIFORM_FORMAT_1F 1 l := by
    unfold get_uniform
    rw [if_neg hguard, hnone]
  obtain ⟨hout, hslot, hlt⟩ :=
    get_uniform_create_slot st p GSK_GL_UNIFORM_FORMAT_1F 1 l hnone
  unfold gsk_gl_uniform_state_set1f
  rw [hgu]
  rcases hcr : get_uniform_create st p GSK_GL_UNIFORM_FORMAT_1F 1 l with ⟨o, st2⟩
  rw [hcr] at hout hslot hlt
  dsimp only at hout hslot hlt
  subst hout
  dsimp only
  split
  · -- value differs from the fresh region content: REPLACE_UNIFORM path
    unfold uniformSlot at hslot
    rcases hpi2 : (st2.program_info.getD p default).uniform_info with _ | infos2
    · rw [hpi2] at hslot
      exact absurd hslot (by simp)
    · rw [hpi2] at hslot
      dsimp only at hslot
      have hrep := replace_uniform_slot st2 p l GSK_GL_UNIFORM_FORMAT_1F 1 infos2 _
        hpi2 hslot hlt
      have hsame : uniformSlot
          { (replace_uniform st2 p l GSK_GL_UNIFORM_FORMAT_1F 1).2 with
            uniform_data := fun n =>
              if n = (replace_uniform st2 p l GSK_GL_UNIFORM_FORMAT_1F 1).1 then v
              else (replace_uniform st2 p l GSK_GL_UNIFORM_FORMAT_1F 1).2.uniform_data n }
          p l =
          uniformSlot (replace_uniform st2 p l GSK_GL_UNIFORM_FORMAT_1F 1).2 p l := rfl
      rw [program_changed_noop_when_changed _ _ _ (by rw [hsame, hrep]; rfl)]
      rw [hsame, hrep]
      rfl
  · -- fresh region already holds the value bit pattern: nothing to do
    rw [hslot]
    rfl

/-- Claim C10: clear_program with program id 0 or an id at or beyond the
registry is a pure no-op; a tracked id above 0 has its uniform_info array
dropped and its n_changed counter reset while pool length and pool bytes
stay untouched; and after a clear_program, a set1f to any location of that
program marks the slot changed regardless of the written value — the write
is unconditionally treated as a change. -/
theorem c10_clear_program_correct (st : GskGLUniformState) (p : Nat) :
    ((p = 0 ∨ st.program_info.length ≤ p) →
      gsk_gl_uniform_state_clear_program st p = st) ∧
    (0 < p → p < st.program_info.length →
      (gsk_gl_uniform_state_clear_program st p).program_info =
        st.program_info.set p { uniform_info := none, n_changed := 0 } ∧
      (gsk_gl_uniform_state_clear_program st p).uniform_data_len =
        st.uniform_data_len ∧
      (gsk_gl_uniform_state_clear_program st p).uniform_data = st.uniform_data) ∧
    (0 < p → ∀ l v, l < GL_MAX_UNIFORM_LOCATIONS →
      (uniformSlot (gsk_gl_uniform_state_set1f
          (gsk_gl_uniform_state_clear_program st p) p l v) p l).map
        GskGLUniformInfo.changed = some true) := by
  refine ⟨?_, ?_, ?_⟩
  · intro h
    unfold gsk_gl_uniform_state_clear_program
    rw [if_pos h]
  · intro hp hlt
    have hcond : ¬(p = 0 ∨ st.program_info.length ≤ p) := by
      rintro (h | h)
      · exact absurd h (Nat.pos_iff_ne_zero.mp hp)
      · exact absurd h (Nat.not_le.mpr hlt)
    unfold gsk_gl_uniform_state_clear_program
    rw [if_neg hcond]
    exact ⟨rfl, rfl, rfl⟩
  · intro hp l v hl
    apply set1f_creation_marks_changed _ _ _ _ hp hl
    unfold gsk_gl_uniform_state_clear_program
    by_cases hcond : p = 0 ∨ st.program_info.length ≤ p
    · rw [if_pos hcond]
      rcases hcond with h | h
      · exact absurd h (Nat.pos_iff_ne_zero.mp hp)
      · rw [List.getD_eq_default _ _ h]
        rfl
    · rw [if_neg hcond]
      have hlt : p < st.program_info.length := by
        rcases Nat.lt_or_ge p st.program_info.length with h | h
        · exact h
        · exact absurd (Or.inr h) hcond
      dsimp only
      rw [list_getD_set_self _ _ _ _ hlt]

/-- Witness for c10_clear_program_correct on exampleState1 (two tracked
programs, program 1 established): the clear drops program 1's slots and
counter, pool length is kept, and a following set1f of the value 0 to the
fresh location 3 is still marked changed. -/
theorem c10_clear_program_correct_witness :
    (gsk_gl_uniform_state_clear_program exampleState1 1).program_info =
      exampleState1.program_info.set 1 { uniform_info := none, n_changed := 0 } ∧
    (gsk_gl_uniform_state_clear_program exampleState1 1).uniform_data_len =
      exampleState1.uniform_data_len ∧
    (uniformSlot (gsk_gl_uniform_state_set1f
        (gsk_gl_uniform_state_clear_program exampleState1 1) 1 3 0) 1 3).map
      GskGLUniformInfo.changed = some true ∧
    gsk_gl_uniform_state_clear_program exampleState1 5 = exampleState1 :=
  ⟨((c10_clear_program_correct exampleState1 1).2.1 (by decide) (by decide)).1,
   ((c10_clear_program_correct exampleState1 1).2.1 (by decide) (by decide)).2.1,
   (c10_clear_program_correct exampleState1 1).2.2 (by decide) 3 0 (by decide),
   (c10_clear_program_correct exampleState1 5).1 (Or.inr (by decide))⟩
